import Mathlib

/-
Verification development for the trend_card_generator repository.

The pipeline under study: a TrendCard schema (six string fields) with a
Markdown rendering (`to_markdown`), collision-safe persistence
(`save_to_file`, producing a slug-derived filename), word counting
(`get_length` over the regex \b[\w\x27]+\b), a prompt-template generator
(`generate_trend_card` via Python str.format), a configuration-override
resolver, and two fail-fast batch loops (`generate_batch`, `edit_batch`).

Conventions of the embedding:
- Python strings are Lean `String`; character-level operations work on
  `String.data : List Char`.
- Regex character classes (\w, \s) are modelled at their ASCII core, which
  covers every string the repository manipulates.
- The LLM agent, the filesystem and the YAML loader are external
  collaborators; they appear as oracle parameters (`run`, `persist`,
  `read`) returning `Except`.
-/

namespace TrendCardGen

/-- Python regex class \s (ASCII part): space, tab, newline, carriage
return, vertical tab, form feed. -/
def pyIsSpace (c : Char) : Bool :=
  c.toNat = 32 || c.toNat = 9 || c.toNat = 10 || c.toNat = 13 ||
  c.toNat = 11 || c.toNat = 12

/-- Python regex class \w (ASCII part): letters, digits and underscore
(codepoint 95). -/
def isWordChar (c : Char) : Bool :=
  (65 ≤ c.toNat && c.toNat ≤ 90) || (97 ≤ c.toNat && c.toNat ≤ 122) ||
  (48 ≤ c.toNat && c.toNat ≤ 57) || c.toNat = 95

/-- Python str.lower applied to one character (ASCII letters). -/
def pyToLower (c : Char) : Char :=
  if 65 ≤ c.toNat ∧ c.toNat ≤ 90 then Char.ofNat (c.toNat + 32) else c

theorem toNat_ofNat_valid (n : Nat) (h : n < 55296) :
    (Char.ofNat n).toNat = n := by
  rw [Char.ofNat, dif_pos (Or.inl h : n.isValidChar)]
  rfl

theorem pyToLower_idem (c : Char) : pyToLower (pyToLower c) = pyToLower c := by
  unfold pyToLower
  by_cases h : 65 ≤ c.toNat ∧ c.toNat ≤ 90
  · rw [if_pos h]
    have ht : (Char.ofNat (c.toNat + 32)).toNat = c.toNat + 32 :=
      toNat_ofNat_valid _ (by omega)
    rw [if_neg (by rw [ht]; omega)]
  · rw [if_neg h, if_neg h]

theorem word_not_space (c : Char) (h : isWordChar c = true) :
    pyIsSpace c = false := by
  simp only [isWordChar, Bool.or_eq_true, Bool.and_eq_true,
    decide_eq_true_eq] at h
  simp only [pyIsSpace, Bool.or_eq_false_iff, decide_eq_false_iff_not]
  omega

/-- Lower-casing step of the filename derivation:
`file_name = self.card_identifier.lower()`. -/
def lowerL (l : List Char) : List Char := l.map pyToLower

/-- `re.sub(r'[^\w\s]', ' ', file_name)`: every character that is neither
a word character nor whitespace becomes a space. -/
def subNonWordL (l : List Char) : List Char :=
  l.map (fun c => if isWordChar c || pyIsSpace c then c else ' ')

/-- Python str.lstrip (default whitespace). -/
def lstripL (l : List Char) : List Char := l.dropWhile pyIsSpace

/-- Python str.rstrip (default whitespace). -/
def rstripL (l : List Char) : List Char :=
  (l.reverse.dropWhile pyIsSpace).reverse

/-- Python str.strip (default whitespace). -/
def stripL (l : List Char) : List Char := rstripL (lstripL l)

/-- `re.sub(r'\s+', '_', s)`: each maximal whitespace run becomes a single
underscore.  The Bool flag records whether we are inside a run whose
underscore has already been emitted. -/
def collapseWS : Bool → List Char → List Char
  | _, [] => []
  | inRun, c :: rest =>
    if pyIsSpace c then
      if inRun then collapseWS true rest else '_' :: collapseWS true rest
    else c :: collapseWS false rest

/-- The filename slug of TrendCard.save_to_file (lines 103-105): lower-case,
strip punctuation to spaces, strip, collapse whitespace runs to single
underscores. -/
def slugL (l : List Char) : List Char :=
  collapseWS false (stripL (subNonWordL (lowerL l)))

/-- String-level slug. -/
def slug (s : String) : String := String.mk (slugL s.data)

theorem mem_collapseWS {c : Char} :
    ∀ (l : List Char) (b : Bool), c ∈ collapseWS b l →
      c = '_' ∨ (c ∈ l ∧ pyIsSpace c = false) := by
  intro l
  induction l with
  | nil => intro b h; simp [collapseWS] at h
  | cons a rest ih =>
    intro b h
    by_cases ha : pyIsSpace a = true
    · rw [collapseWS, if_pos ha] at h
      cases b with
      | true =>
        rcases ih true h with h1 | ⟨h2, h3⟩
        · exact Or.inl h1
        · exact Or.inr ⟨List.mem_cons_of_mem _ h2, h3⟩
      | false =>
        rcases List.mem_cons.mp h with h1 | h1
        · exact Or.inl h1
        · rcases ih true h1 with h2 | ⟨h2, h3⟩
          · exact Or.inl h2
          · exact Or.inr ⟨List.mem_cons_of_mem _ h2, h3⟩
    · rw [collapseWS, if_neg ha] at h
      rcases List.mem_cons.mp h with h1 | h1
      · subst h1
        exact Or.inr ⟨List.mem_cons_self _ _, by
          cases hb : pyIsSpace c with
          | false => rfl
          | true => exact absurd hb ha⟩
      · rcases ih false h1 with h2 | ⟨h2, h3⟩
        · exact Or.inl h2
        · exact Or.inr ⟨List.mem_cons_of_mem _ h2, h3⟩

theorem mem_stripL {c : Char} {l : List Char} (h : c ∈ stripL l) : c ∈ l := by
  unfold stripL rstripL lstripL at h
  have h1 := List.mem_reverse.mp h
  have h2 := List.dropWhile_subset pyIsSpace h1
  have h3 := List.mem_reverse.mp h2
  exact List.dropWhile_subset pyIsSpace h3

/-- Every character of a slug is a word character fixed by lower-casing. -/
theorem slugL_chars {c : Char} {l : List Char} (h : c ∈ slugL l) :
    isWordChar c = true ∧ pyToLower c = c := by
  rcases mem_collapseWS _ _ h with h1 | ⟨h1, h2⟩
  · subst h1; constructor <;> decide
  · have h3 := mem_stripL h1
    rcases List.mem_map.mp h3 with ⟨d, hd, hde⟩
    rcases List.mem_map.mp hd with ⟨a, _, hae⟩
    by_cases hw : (isWordChar d || pyIsSpace d) = true
    · rw [if_pos hw] at hde
      subst hde
      rcases Bool.or_eq_true _ _ ▸ hw with hw1 | hw2
      · exact ⟨hw1, by rw [← hae, pyToLower_idem]⟩
      · rw [hw2] at h2; exact absurd h2 (by simp)
    · rw [if_neg hw] at hde
      subst hde
      simp [pyIsSpace] at h2

theorem map_id_of_mem {α : Type} {f : α → α} :
    ∀ (l : List α), (∀ a ∈ l, f a = a) → l.map f = l := by
  intro l
  induction l with
  | nil => intro _; rfl
  | cons a rest ih =>
    intro h
    rw [List.map_cons, h a (List.mem_cons_self _ _),
      ih (fun b hb => h b (List.mem_cons_of_mem _ hb))]

theorem dropWhile_eq_self_of_head {l : List Char}
    (h : ∀ c ∈ l, pyIsSpace c = false) : l.dropWhile pyIsSpace = l := by
  cases l with
  | nil => rfl
  | cons a rest =>
    exact List.dropWhile_cons_of_neg (by
      rw [h a (List.mem_cons_self _ _)]; exact Bool.false_ne_true)

theorem collapseWS_eq_self :
    ∀ (l : List Char), (∀ c ∈ l, pyIsSpace c = false) →
      collapseWS false l = l := by
  intro l
  induction l with
  | nil => intro _; rfl
  | cons a rest ih =>
    intro h
    rw [collapseWS, if_neg (by
      rw [h a (List.mem_cons_self _ _)]; exact Bool.false_ne_true),
      ih (fun c hc => h c (List.mem_cons_of_mem _ hc))]

theorem slugL_fixed {l : List Char}
    (h : ∀ c ∈ l, isWordChar c = true ∧ pyToLower c = c) : slugL l = l := by
  have hnos : ∀ c ∈ l, pyIsSpace c = false :=
    fun c hc => word_not_space c ((h c hc).1)
  have h1 : lowerL l = l := map_id_of_mem l (fun c hc => (h c hc).2)
  have h2 : subNonWordL l = l := map_id_of_mem l (fun c hc => by
    rw [if_pos]; rw [(h c hc).1]; exact Bool.true_or _)
  have h3 : stripL l = l := by
    unfold stripL lstripL rstripL
    rw [dropWhile_eq_self_of_head hnos,
      dropWhile_eq_self_of_head (fun c hc => hnos c (List.mem_reverse.mp hc)),
      List.reverse_reverse]
  unfold slugL
  rw [h1, h2, h3, collapseWS_eq_self l hnos]

/-- C6: the slug function used by save_to_file (lower-case, strip
punctuation to spaces, strip, collapse whitespace runs to single
underscores) is idempotent: slug (slug s) = slug s for every string s. -/
theorem slug_idempotent (s : String) : slug (slug s) = slug s := by
  unfold slug
  have : slugL (slugL s.data) = slugL s.data :=
    slugL_fixed (fun c hc => slugL_chars hc)
  rw [String.ext_iff]
  exact this

/-- The TrendCard schema: six required string fields in declared order
(src/models/TrendCard.py).  The pydantic alias challenges_threats for the
last field only affects construction keyword names, not the stored data. -/
structure TrendCard where
  card_identifier : String
  title : String
  description : String
  implications : String
  opportunities : String
  challenges : String
deriving DecidableEq, Repr

/-- Python str.upper applied to one character (ASCII letters). -/
def pyToUpper (c : Char) : Char :=
  if 97 ≤ c.toNat ∧ c.toNat ≤ 122 then Char.ofNat (c.toNat - 32) else c

/-- Python str.title scanner: upper-case a letter that follows a
non-letter, lower-case a letter that follows a letter (ASCII).  The Bool
argument records whether the previous character was a letter. -/
def pyTitleGo : Bool → List Char → List Char
  | _, [] => []
  | prevAlpha, c :: rest =>
    let isA := (65 ≤ c.toNat && c.toNat ≤ 90) || (97 ≤ c.toNat && c.toNat ≤ 122)
    (if isA then (if prevAlpha then pyToLower c else pyToUpper c) else c) ::
      pyTitleGo isA rest

/-- Python str.title. -/
def pyTitle (s : String) : String := String.mk (pyTitleGo false s.data)

/-- Python str.replace with the single-character pattern used by
to_markdown: attr_name.replace(underscore, space). -/
def underscoresToSpaces (s : String) : String :=
  String.mk (s.data.map (fun c => if c.toNat = 95 then ' ' else c))

/-- The declared field order iterated by get_type_hints(TrendCard) in
to_markdown and get_length, with each field accessor. -/
def fieldOrder : List (String × (TrendCard → String)) :=
  [("card_identifier", TrendCard.card_identifier),
   ("title", TrendCard.title),
   ("description", TrendCard.description),
   ("implications", TrendCard.implications),
   ("opportunities", TrendCard.opportunities),
   ("challenges", TrendCard.challenges)]

/-- One section of the Markdown rendering: the default output_format
string of to_markdown with title and content substituted. -/
def renderField (card : TrendCard) (p : String × (TrendCard → String)) : String :=
  "**" ++ pyTitle (underscoresToSpaces p.1) ++ ":** " ++ p.2 card ++ "\n\n"

/-- Python str.strip at String level. -/
def pyStrip (s : String) : String := String.mk (stripL s.data)

/-- Python str.rstrip at String level. -/
def pyRstrip (s : String) : String := String.mk (rstripL s.data)

/-- TrendCard.to_markdown: accumulate one formatted section per declared
field, then strip the result. -/
def to_markdown (card : TrendCard) : String :=
  pyStrip ((fieldOrder.map (renderField card)).foldl (fun acc s => acc ++ s) "")

/-- One section as the claim C2 words it: two asterisks, the field name in
Title Case with underscores replaced by spaces, colon-asterisks-space, the
field value, then a blank line. -/
def claimSection (name value : String) : String :=
  "**" ++ name ++ ":** " ++ value ++ "\n\n"

/-- Concatenation of the six sections in declared schema order, per the
claim C2 wording. -/
def claimBody (card : TrendCard) : String :=
  claimSection "Card Identifier" card.card_identifier ++
  claimSection "Title" card.title ++
  claimSection "Description" card.description ++
  claimSection "Implications" card.implications ++
  claimSection "Opportunities" card.opportunities ++
  claimSection "Challenges" card.challenges

/-- Rendering described by the specification for C2: the concatenated
sections with the whole block trimmed of trailing whitespace. -/
def claimMarkdown (card : TrendCard) : String := pyRstrip (claimBody card)

/-- Index of the last occurrence of a character in a list, if any. -/
def rfindIdx (c : Char) : List Char → Option Nat
  | [] => none
  | a :: rest =>
    match rfindIdx c rest with
    | some i => some (i + 1)
    | none => if a = c then some 0 else none

/-- PurePosixPath stem/suffix split of a file name: the extension starts at
the last dot when that dot is neither the first nor the last character. -/
def stemExt (name : List Char) : List Char × List Char :=
  match rfindIdx '.' name with
  | some i =>
    if 0 < i ∧ i + 1 < name.length then (name.take i, name.drop i) else (name, [])
  | none => (name, [])

/-- Split a path at its last slash: parent directory (if any) and the final
component. -/
def splitParent (p : List Char) : Option (List Char) × List Char :=
  match rfindIdx '/' p with
  | some i => (some (p.take i), p.drop (i + 1))
  | none => (none, p)

/-- fileio.append_to_filename: insert separator and suffix between the stem
and the extension of the final path component (models pathlib on the
plain paths the repository produces). -/
def append_to_filename (file_path suffix separator : String) : String :=
  let ps := splitParent file_path.data
  let se := stemExt ps.2
  let newName := se.1 ++ separator.data ++ suffix.data ++ se.2
  match ps.1 with
  | none => String.mk newName
  | some par => String.mk (par ++ '/' :: newName)

/-- Python str.startswith for the single-character dot prefix test of
save_to_file. -/
def startsWithDot (s : String) : Bool :=
  match s.data with
  | [] => false
  | c :: _ => c = '.'

/-- save_to_file lines 100-101: ensure the extension starts with a period.
-/
def normalizeExt (extension : String) : String :=
  if startsWithDot extension then extension else "." ++ extension

/-- A single file write performed by save_to_file. -/
structure WriteEvent where
  path : String
  content : String
deriving DecidableEq, Repr

/-- Successful outcome of save_to_file: the returned file name and the one
write it performed. -/
structure SaveOk where
  file_name : String
  write : WriteEvent
deriving DecidableEq, Repr

/-- The NotImplementedError raised by the extension match of save_to_file.
-/
inductive SaveError where
  | notImplemented (extension : String)
deriving DecidableEq, Repr

/-- TrendCard.save_to_file: normalize the extension to start with a dot,
derive the slug-based file name, insert the optional suffix before the
extension (skipped when the suffix is None or empty, Python truthiness),
create the target directory (a pure no-op here), then write the Markdown
rendering when the normalized extension is ".md" and raise
NotImplementedError for any other normalized extension.  Returns the file
name (not the full path); the recorded write carries the full path. -/
def save_to_file (card : TrendCard) (file_name_suffix : Option String)
    (extension : String) (file_path : String) : Except SaveError SaveOk :=
  let ext := normalizeExt extension
  let base := slug card.card_identifier ++ ext
  let file_name :=
    match file_name_suffix with
    | some s => if s = "" then base else append_to_filename base s "_"
    | none => base
  if ext = ".md" then
    Except.ok { file_name := file_name,
                write := { path := file_path ++ "/" ++ file_name,
                           content := to_markdown card } }
  else
    Except.error (SaveError.notImplemented ext)

theorem title_card_identifier :
    pyTitle (underscoresToSpaces "card_identifier") = "Card Identifier" := by decide

theorem title_title : pyTitle (underscoresToSpaces "title") = "Title" := by decide

theorem title_description :
    pyTitle (underscoresToSpaces "description") = "Description" := by decide

theorem title_implications :
    pyTitle (underscoresToSpaces "implications") = "Implications" := by decide

theorem title_opportunities :
    pyTitle (underscoresToSpaces "opportunities") = "Opportunities" := by decide

theorem title_challenges :
    pyTitle (underscoresToSpaces "challenges") = "Challenges" := by decide

/-- The accumulated section string of to_markdown coincides with the
claim-side section concatenation. -/
theorem markdown_body_eq (card : TrendCard) :
    (fieldOrder.map (renderField card)).foldl (fun acc s => acc ++ s) "" =
      claimBody card := by
  simp only [fieldOrder, List.map_cons, List.map_nil, List.foldl_cons,
    List.foldl_nil, renderField, claimBody, claimSection,
    title_card_identifier, title_title, title_description,
    title_implications, title_opportunities, title_challenges,
    String.empty_append]

theorem pyStrip_eq_pyRstrip {s : String} (h : lstripL s.data = s.data) :
    pyStrip s = pyRstrip s := by
  unfold pyStrip pyRstrip stripL
  rw [show lstripL s.data = s.data from h]

theorem lstrip_claimBody (card : TrendCard) :
    lstripL (claimBody card).data = (claimBody card).data := by
  have h : (claimBody card).data =
      '*' :: ("*" ++ "Card Identifier" ++ ":** " ++ card.card_identifier ++
        "\n\n" ++ claimSection "Title" card.title ++
        claimSection "Description" card.description ++
        claimSection "Implications" card.implications ++
        claimSection "Opportunities" card.opportunities ++
        claimSection "Challenges" card.challenges).data := by
    apply @List.append_cancel_left Char []
    simp [claimBody, claimSection, String.data_append, List.append_assoc]
  rw [h]
  unfold lstripL
  rw [List.dropWhile_cons_of_neg (by decide)]

/-- C2: the content written by save_to_file equals to_markdown, and
to_markdown equals the concatenation, over the six fields in declared
schema order, of the claim-side sections, trimmed of trailing whitespace.
-/
theorem markdown_save_round_trip (card : TrendCard) (dir : String) :
    (save_to_file card none ".md" dir).map (fun r => r.write.content) =
      Except.ok (to_markdown card) ∧
    to_markdown card = claimMarkdown card := by
  constructor
  · rfl
  · unfold to_markdown claimMarkdown
    rw [markdown_body_eq card]
    exact pyStrip_eq_pyRstrip (lstrip_claimBody card)

/-- A concrete card used to instantiate the universally quantified
theorems. -/
def sampleCard : TrendCard :=
  { card_identifier := "Gen Z / Social"
    title := "Waves"
    description := "A shift."
    implications := "Broad."
    opportunities := "Many."
    challenges := "Real." }

/-- Witness for C2 at a concrete card. -/
theorem markdown_save_round_trip_witness :
    (save_to_file sampleCard none ".md" "outputs").map
        (fun r => r.write.content) = Except.ok (to_markdown sampleCard) ∧
    to_markdown sampleCard = claimMarkdown sampleCard :=
  markdown_save_round_trip sampleCard "outputs"

/-- C3 counterexample: the extension argument "md" is not ".md", yet
save_to_file does not raise, because the extension is dot-normalized
before the format check.  This refutes the raise-iff-argument-differs
reading of C3 at a concrete input. -/
theorem save_md_without_dot_not_error :
    ("md" ≠ ".md") ∧
    (save_to_file sampleCard none "md" "outputs").isOk = true := by decide

/-- C3 amended: save_to_file raises the unsupported-format error if and
only if the DOT-NORMALIZED extension differs from ".md"; when it does not
raise, the Markdown rendering is written and the generated file name (not
the full path) is returned, the full path being directory/file name. -/
theorem save_unsupported_iff_normalized (card : TrendCard)
    (extension dir : String) :
    ((save_to_file card none extension dir).isOk = false ↔
      normalizeExt extension ≠ ".md") ∧
    (∀ r, save_to_file card none extension dir = Except.ok r →
      r.write.content = to_markdown card ∧
      r.file_name = slug card.card_identifier ++ normalizeExt extension ∧
      r.write.path = dir ++ "/" ++ r.file_name) := by
  unfold save_to_file
  by_cases h : normalizeExt extension = ".md"
  · rw [if_pos h]
    refine ⟨by simp [Except.isOk, Except.toBool, h], ?_⟩
    intro r hr
    cases hr
    exact ⟨rfl, by rw [h], rfl⟩
  · rw [if_neg h]
    exact ⟨by simp [Except.isOk, Except.toBool, h], by intro r hr; cases hr⟩

/-- Witness for the amended C3 at a concrete card and extension. -/
theorem save_unsupported_iff_normalized_witness :
    (((save_to_file sampleCard none ".txt" "outputs").isOk = false ↔
      normalizeExt ".txt" ≠ ".md") ∧
    (∀ r, save_to_file sampleCard none ".txt" "outputs" = Except.ok r →
      r.write.content = to_markdown sampleCard ∧
      r.file_name = slug sampleCard.card_identifier ++ normalizeExt ".txt" ∧
      r.write.path = "outputs" ++ "/" ++ r.file_name)) ∧
    (save_to_file sampleCard none ".txt" "outputs").isOk = false ∧
    normalizeExt ".txt" ≠ ".md" :=
  ⟨save_unsupported_iff_normalized sampleCard ".txt" "outputs",
   by decide, by decide⟩

/-- C10: save_to_file dot-normalizes the extension before both the file
name construction and the format check: extension "md" behaves exactly as
".md" (same successful result, hence same written content), the returned
file name ends in ".md", and the unsupported-format error occurs exactly
when the dot-normalized extension differs from ".md". -/
theorem save_extension_dot_normalization (card : TrendCard) (dir : String) :
    save_to_file card none "md" dir = save_to_file card none ".md" dir ∧
    (∃ stem, (save_to_file card none "md" dir).map SaveOk.file_name =
      Except.ok (stem ++ ".md")) ∧
    (∀ extension, (save_to_file card none extension dir).isOk = false ↔
      normalizeExt extension ≠ ".md") := by
  refine ⟨rfl, ⟨slug card.card_identifier, rfl⟩, ?_⟩
  intro extension
  exact (save_unsupported_iff_normalized card extension dir).1

/-- Witness for C10 at a concrete card. -/
theorem save_extension_dot_normalization_witness :
    save_to_file sampleCard none "md" "outputs" =
      save_to_file sampleCard none ".md" "outputs" ∧
    (∃ stem, (save_to_file sampleCard none "md" "outputs").map
      SaveOk.file_name = Except.ok (stem ++ ".md")) ∧
    (∀ extension,
      (save_to_file sampleCard none extension "outputs").isOk = false ↔
      normalizeExt extension ≠ ".md") :=
  save_extension_dot_normalization sampleCard "outputs"

/-- Input parameters of the generator (src/models/TrendCardInput.py):
industry_segment and topic required; component optional (None lets the
model choose); word_limit optional with pydantic default 40. -/
structure TrendCardInput where
  industry_segment : String
  topic : String
  component : Option String
  word_limit : Option Int
deriving DecidableEq, Repr

/-- How Python str.format stringifies an optional string field: the value
itself, or the literal "None". -/
def pyOptStr (v : Option String) : String :=
  match v with
  | some s => s
  | none => "None"

/-- How Python str.format stringifies an optional integer field: its
decimal representation, or the literal "None". -/
def pyOptInt (v : Option Int) : String :=
  match v with
  | some n => toString n
  | none => "None"

/-- Python str.format scanner over the template characters.  The Option
argument is the accumulator of the field name being read (None while in
literal text).  Doubled braces escape a literal brace; an unknown field
name raises KeyError (the repository surfaces it as a template
substitution error); format-spec syntax is not used by any template of
this repository and is treated as part of the field name. -/
def formatLoop (v : String → Option String) :
    Option (List Char) → List Char → Except String (List Char)
  | none, [] => Except.ok []
  | none, '\x7b' :: '\x7b' :: rest =>
    (formatLoop v none rest).map (fun t => '\x7b' :: t)
  | none, '\x7b' :: rest => formatLoop v (some []) rest
  | none, '\x7d' :: '\x7d' :: rest =>
    (formatLoop v none rest).map (fun t => '\x7d' :: t)
  | none, '\x7d' :: _ => Except.error "Single closing brace in format string"
  | none, c :: rest => (formatLoop v none rest).map (fun t => c :: t)
  | some _, [] => Except.error "Expected closing brace in format string"
  | some acc, '\x7d' :: rest =>
    (match v (String.mk acc.reverse) with
     | some s => (formatLoop v none rest).map (fun t => s.data ++ t)
     | none => Except.error ("KeyError: " ++ String.mk acc.reverse))
  | some _, '\x7b' :: _ =>
    Except.error "Unexpected opening brace in field name"
  | some acc, c :: rest => formatLoop v (some (c :: acc)) rest

/-- Python str.format with keyword arguments given as a lookup. -/
def pyFormat (template : String) (v : String → Option String) :
    Except String String :=
  (formatLoop v none template.data).map String.mk

/-- The keyword arguments passed to prompt_template.format by
generate_trend_card: industry_segment, topic, component, word_limit. -/
def inputVals (inputs : TrendCardInput) : String → Option String :=
  fun name =>
    if name = "industry_segment" then some inputs.industry_segment
    else if name = "topic" then some inputs.topic
    else if name = "component" then some (pyOptStr inputs.component)
    else if name = "word_limit" then some (pyOptInt inputs.word_limit)
    else none

/-- Prompt construction of generate_trend_card (TrendCardAgent lines
72-78). -/
def build_prompt (prompt_template : String) (inputs : TrendCardInput) :
    Except String String :=
  pyFormat prompt_template (inputVals inputs)

/-- Failure of a generation: a template substitution error, or an error of
the external agent. -/
inductive GenError (ε : Type) where
  | template (msg : String)
  | agent (e : ε)
deriving DecidableEq, Repr

/-- TrendCardAgent.generate_trend_card: fill the prompt template from the
inputs and pass the finished prompt verbatim to the agent's run; the
validated card comes back unchanged.  The agent binding (pydantic-ai, the
LLM provider, schema-validation retries) is external and appears as the
oracle `run`. -/
def generate_trend_card {ε : Type} (prompt_template : String)
    (run : String → Except ε TrendCard) (inputs : TrendCardInput) :
    Except (GenError ε) TrendCard :=
  match build_prompt prompt_template inputs with
  | Except.error m => Except.error (GenError.template m)
  | Except.ok prompt =>
    match run prompt with
    | Except.error e => Except.error (GenError.agent e)
    | Except.ok card => Except.ok card

/-- The template of the C5 scenario. -/
def pipeTemplate : String :=
  "{industry_segment}|{topic}|{component}|{word_limit}"

/-- The input of the C5 scenario. -/
def fintechInput : TrendCardInput :=
  { industry_segment := "Fintech"
    topic := "Embedded Finance"
    component := some "Economic"
    word_limit := some 30 }

/-- C5: generate_trend_card builds the prompt by placeholder substitution
of the four input fields into the template and passes it verbatim to the
agent; in particular the pipe template applied to the Fintech input yields
exactly "Fintech|Embedded Finance|Economic|30". -/
theorem prompt_substitution_verbatim {ε : Type} (tpl : String)
    (inputs : TrendCardInput) (p : String)
    (h : build_prompt tpl inputs = Except.ok p)
    (run : String → Except ε TrendCard) :
    generate_trend_card tpl run inputs =
      (match run p with
       | Except.ok card => Except.ok card
       | Except.error e => Except.error (GenError.agent e)) ∧
    build_prompt pipeTemplate fintechInput =
      Except.ok "Fintech|Embedded Finance|Economic|30" := by
  constructor
  · unfold generate_trend_card
    rw [h]
    cases hrp : run p <;> simp [hrp]
  · rfl

/-- A fixed agent answer used to instantiate oracle-parameterized
theorems. -/
def okAgent : String → Except String TrendCard :=
  fun _ => Except.ok sampleCard

/-- Witness for C5 at the concrete scenario. -/
theorem prompt_substitution_verbatim_witness :
    generate_trend_card pipeTemplate okAgent fintechInput =
      (match okAgent "Fintech|Embedded Finance|Economic|30" with
       | Except.ok card => Except.ok card
       | Except.error e => Except.error (GenError.agent e)) ∧
    build_prompt pipeTemplate fintechInput =
      Except.ok "Fintech|Embedded Finance|Economic|30" :=
  prompt_substitution_verbatim pipeTemplate fintechInput
    "Fintech|Embedded Finance|Economic|30" (by rfl) okAgent

/-- A schema-conformant agent answer whose card_identifier does NOT follow
the topic-slash-component convention: nothing in the code prevents this.
-/
def mismatchCard : TrendCard :=
  { card_identifier := "Mismatch"
    title := "t"
    description := "d"
    implications := "i"
    opportunities := "o"
    challenges := "c" }

/-- Agent oracle that returns mismatchCard for every prompt. -/
def mismatchAgent : String → Except String TrendCard :=
  fun _ => Except.ok mismatchCard

/-- C7 counterexample: with the Fintech input (topic "Embedded Finance",
component "Economic") and an agent returning a valid TrendCard whose
identifier is "Mismatch", generate_trend_card returns that card unchanged,
so its card_identifier is not the topic and component joined by " / ".
The repository never constructs or validates card_identifier; only the
schema field description asks the model for that format. -/
theorem card_identifier_not_enforced :
    (generate_trend_card pipeTemplate mismatchAgent
        fintechInput).map TrendCard.card_identifier =
      Except.ok "Mismatch" ∧
    "Mismatch" ≠ fintechInput.topic ++ " / " ++ "Economic" := by
  exact ⟨rfl, by decide⟩

/-- C7 amended: generate_trend_card returns the agent's card unchanged (no
post-processing), so the returned card_identifier equals the input's topic
and component joined by " / " exactly when the agent produced that
identifier. -/
theorem generate_returns_agent_card {ε : Type} (tpl : String)
    (run : String → Except ε TrendCard) (inputs : TrendCardInput)
    (p : String) (card : TrendCard)
    (hp : build_prompt tpl inputs = Except.ok p)
    (hr : run p = Except.ok card) :
    generate_trend_card tpl run inputs = Except.ok card ∧
    ∀ c, inputs.component = some c →
      ((generate_trend_card tpl run inputs).map TrendCard.card_identifier =
          Except.ok (inputs.topic ++ " / " ++ c) ↔
        card.card_identifier = inputs.topic ++ " / " ++ c) := by
  have hgen : generate_trend_card tpl run inputs = Except.ok card := by
    simp [generate_trend_card, hp, hr]
  refine ⟨hgen, ?_⟩
  intro c _
  rw [hgen]
  exact ⟨fun hmap => Except.ok.inj hmap, fun h => congrArg Except.ok h⟩

/-- A conforming agent answer for the Fintech scenario. -/
def conformingCard : TrendCard :=
  { card_identifier := "Embedded Finance / Economic"
    title := "t"
    description := "d"
    implications := "i"
    opportunities := "o"
    challenges := "c" }

/-- Agent oracle that returns conformingCard for every prompt. -/
def conformingAgent : String → Except String TrendCard :=
  fun _ => Except.ok conformingCard

/-- Witness for the amended C7 at a concrete conforming agent. -/
theorem generate_returns_agent_card_witness :
    generate_trend_card pipeTemplate conformingAgent
        fintechInput = Except.ok conformingCard ∧
    ∀ c, fintechInput.component = some c →
      ((generate_trend_card pipeTemplate
            conformingAgent fintechInput).map
          TrendCard.card_identifier =
          Except.ok (fintechInput.topic ++ " / " ++ c) ↔
        conformingCard.card_identifier =
          fintechInput.topic ++ " / " ++ c) :=
  generate_returns_agent_card pipeTemplate
    conformingAgent fintechInput
    "Fintech|Embedded Finance|Economic|30" conformingCard (by rfl) rfl

/-- The Fintech input with both optional fields absent. -/
def noneInput : TrendCardInput :=
  { industry_segment := "Fintech"
    topic := "Embedded Finance"
    component := none
    word_limit := none }

/-- C9: when the optional component is absent, the keyword argument passed
to str.format for "component" is the literal string "None" (and likewise
an absent word_limit renders as "None"); the placeholder is not omitted.
Concretely, the pipe template with component and word limit both absent
renders "Fintech|Embedded Finance|None|None". -/
theorem component_none_renders_none (inputs : TrendCardInput)
    (h : inputs.component = none) :
    inputVals inputs "component" = some "None" ∧
    (inputs.word_limit = none → inputVals inputs "word_limit" = some "None") ∧
    build_prompt pipeTemplate noneInput =
      Except.ok "Fintech|Embedded Finance|None|None" := by
  refine ⟨?_, ?_, by rfl⟩
  · simp [inputVals, h, pyOptStr]
  · intro hw
    simp [inputVals, hw, pyOptInt]

/-- Witness for C9 at a concrete input with absent component. -/
theorem component_none_renders_none_witness :
    inputVals noneInput "component" = some "None" ∧
    (noneInput.word_limit = none →
      inputVals noneInput "word_limit" = some "None") ∧
    build_prompt pipeTemplate noneInput =
      Except.ok "Fintech|Embedded Finance|None|None" :=
  component_none_renders_none noneInput rfl

/-- A YAML configuration value: the repository configurations carry
strings and numbers (temperature is a float, modelled as a rational since
it is only stored and compared, never computed with). -/
inductive ConfigVal where
  | str (s : String)
  | num (q : Rat)
deriving DecidableEq, Repr

/-- A resolved configuration mapping, as the dict loaded from YAML. -/
def Config : Type := String → Option ConfigVal

/-- Constructor-override parameters (src/models/AgentConfiguration.py):
model and temperature (pydantic bounds 0.0 to 2.0 are checked at
construction and irrelevant to the merge). -/
structure AgentConfiguration where
  model : String
  temperature : Rat
deriving DecidableEq, Repr

/-- The override merge performed by the TrendCardAgent and TrendCardEditor
constructors: when settings are provided, assign config["model"] and
config["temperature"] from them; every other key is untouched.  With no
settings the configuration is returned as loaded. -/
def resolveConfig (base : Config) (settings : Option AgentConfiguration) :
    Config :=
  match settings with
  | none => base
  | some s => fun k =>
      if k = "model" then some (ConfigVal.str s.model)
      else if k = "temperature" then some (ConfigVal.num s.temperature)
      else base k

/-- The merge step shared by both constructors: with an override the
merged mapping has exactly the override's model and temperature and every
other key keeps its base value; with no override every key keeps its base
value. -/
theorem config_override_frame (base : Config) (s : AgentConfiguration) :
    resolveConfig base (some s) "model" = some (ConfigVal.str s.model) ∧
    resolveConfig base (some s) "temperature" =
      some (ConfigVal.num s.temperature) ∧
    (∀ k, k ≠ "model" → k ≠ "temperature" →
      resolveConfig base (some s) k = base k) ∧
    (∀ k, resolveConfig base none k = base k) := by
  refine ⟨rfl, rfl, ?_, fun k => rfl⟩
  intro k hm ht
  show (if k = "model" then some (ConfigVal.str s.model)
    else if k = "temperature" then some (ConfigVal.num s.temperature)
    else base k) = base k
  rw [if_neg hm, if_neg ht]

/-- A base configuration mirroring the scenario of the specification. -/
def baseConfig : Config := fun k =>
  if k = "model" then some (ConfigVal.str "gpt-4o")
  else if k = "temperature" then some (ConfigVal.num (1/2 : Rat))
  else if k = "system_prompt" then some (ConfigVal.str "sys")
  else if k = "prompt_template" then some (ConfigVal.str pipeTemplate)
  else if k = "max_tokens" then some (ConfigVal.num 2048)
  else if k = "thinking_budget" then some (ConfigVal.num 2048)
  else if k = "generator_retries" then some (ConfigVal.num 3)
  else none

/-- The override of the specification scenario: model "gemini-x",
temperature 1.2. -/
def geminiOverride : AgentConfiguration :=
  { model := "gemini-x", temperature := (6/5 : Rat) }

/-- TrendCardEditor.__init__ (lines 42-56): load the configuration, merge
the override (the same assignment of model and temperature as the Agent),
then line 50 replaces config["system_prompt"] by its word-limit
substitution BEFORE the agent is built: Python str.format with the single
keyword word_limit (raising if the key is absent, not a string, or the
prompt references another placeholder).  Returns the configuration used
by create_agent. -/
def editorResolveConfig (base : Config) (settings : Option AgentConfiguration)
    (section_word_limit : Int) : Except String Config :=
  match resolveConfig base settings "system_prompt" with
  | some (ConfigVal.str sp) =>
    match pyFormat sp (fun name =>
        if name = "word_limit" then some (toString section_word_limit)
        else none) with
    | Except.ok sp2 =>
      Except.ok (fun k =>
        if k = "system_prompt" then some (ConfigVal.str sp2)
        else resolveConfig base settings k)
    | Except.error m => Except.error m
  | _ => Except.error "system_prompt missing or not a string"

/-- A base configuration for the Editor whose system prompt carries the
word-limit placeholder. -/
def editorBaseConfig : Config := fun k =>
  if k = "model" then some (ConfigVal.str "gpt-4o")
  else if k = "temperature" then some (ConfigVal.num (1/2 : Rat))
  else if k = "system_prompt" then
    some (ConfigVal.str "Limit: {word_limit} words.")
  else none

/-- C4 counterexample: in the Editor constructor with NO override, the
configuration used to build the agent does not keep the base
system_prompt: the word limit has been substituted into it
(TrendCardEditor.py line 50 runs after the merge and before
create_agent), refuting "when no override is supplied, all base values
are unchanged" at a concrete input. -/
theorem editor_system_prompt_not_unchanged :
    (editorResolveConfig editorBaseConfig none 40).map
        (fun c => c "system_prompt") =
      Except.ok (some (ConfigVal.str "Limit: 40 words.")) ∧
    editorBaseConfig "system_prompt" =
      some (ConfigVal.str "Limit: {word_limit} words.") ∧
    some (ConfigVal.str "Limit: 40 words.") ≠
      some (ConfigVal.str "Limit: {word_limit} words.") := by
  refine ⟨rfl, rfl, by decide⟩

/-- C4 amended: the override merge sets exactly model and temperature and
keeps every other key (with no override it keeps every key) — and this
merge is the whole resolution for the Generator constructor; the Editor
constructor additionally replaces system_prompt by its word-limit
substitution after the merge, so the configuration used to build the
Editor's agent keeps every key other than model, temperature and
system_prompt, while its system_prompt is the substituted merged prompt
(changed even with no override). -/
theorem config_override_frame_with_editor_prompt (base : Config)
    (s : AgentConfiguration) (wl : Int) :
    resolveConfig base (some s) "model" = some (ConfigVal.str s.model) ∧
    resolveConfig base (some s) "temperature" =
      some (ConfigVal.num s.temperature) ∧
    (∀ k, k ≠ "model" → k ≠ "temperature" →
      resolveConfig base (some s) k = base k) ∧
    (∀ k, resolveConfig base none k = base k) ∧
    (∀ settings c, editorResolveConfig base settings wl = Except.ok c →
      (∀ k, k ≠ "system_prompt" → c k = resolveConfig base settings k) ∧
      (∃ sp sp2, resolveConfig base settings "system_prompt" =
          some (ConfigVal.str sp) ∧
        pyFormat sp (fun name =>
          if name = "word_limit" then some (toString wl) else none) =
          Except.ok sp2 ∧
        c "system_prompt" = some (ConfigVal.str sp2))) := by
  have hbase := config_override_frame base s
  refine ⟨hbase.1, hbase.2.1, hbase.2.2.1, hbase.2.2.2, ?_⟩
  intro settings c h
  unfold editorResolveConfig at h
  cases hsp : resolveConfig base settings "system_prompt" with
  | none => simp [hsp] at h
  | some v =>
    cases v with
    | num q => simp [hsp] at h
    | str sp =>
      simp only [hsp] at h
      cases hfmt : pyFormat sp (fun name =>
          if name = "word_limit" then some (toString wl) else none) with
      | error m => simp [hfmt] at h
      | ok sp2 =>
        simp only [hfmt] at h
        have hc := Except.ok.inj h
        subst hc
        constructor
        · intro k hk
          show (if k = "system_prompt" then some (ConfigVal.str sp2)
            else resolveConfig base settings k) =
            resolveConfig base settings k
          rw [if_neg hk]
        · refine ⟨sp, sp2, rfl, hfmt, ?_⟩
          show (if "system_prompt" = "system_prompt" then
            some (ConfigVal.str sp2)
            else resolveConfig base settings "system_prompt") =
            some (ConfigVal.str sp2)
          rw [if_pos rfl]

/-- Witness for the amended C4: the Generator scenario keeps
system_prompt from the base while model comes from the override, and the
Editor resolution at the concrete base keeps every key other than
system_prompt, whose merged value gets the word limit substituted. -/
theorem config_override_frame_with_editor_prompt_witness :
    resolveConfig baseConfig (some geminiOverride) "model" =
      some (ConfigVal.str "gemini-x") ∧
    resolveConfig baseConfig (some geminiOverride) "temperature" =
      some (ConfigVal.num (6/5 : Rat)) ∧
    resolveConfig baseConfig (some geminiOverride) "system_prompt" =
      baseConfig "system_prompt" ∧
    (∀ c, editorResolveConfig editorBaseConfig none 40 = Except.ok c →
      (∀ k, k ≠ "system_prompt" →
        c k = resolveConfig editorBaseConfig none k) ∧
      (∃ sp sp2, resolveConfig editorBaseConfig none "system_prompt" =
          some (ConfigVal.str sp) ∧
        pyFormat sp (fun name =>
          if name = "word_limit" then some (toString (40 : Int)) else none) =
          Except.ok sp2 ∧
        c "system_prompt" = some (ConfigVal.str sp2))) := by
  have h1 := config_override_frame_with_editor_prompt baseConfig
    geminiOverride 40
  have h2 := config_override_frame_with_editor_prompt editorBaseConfig
    geminiOverride 40
  exact ⟨h1.1, h1.2.1,
    h1.2.2.1 "system_prompt" (by decide) (by decide),
    h2.2.2.2.2 none⟩

/-- A character matched by [\w\x27]+ in WORD_PATTERN: a word character or
an apostrophe (codepoint 39). -/
def isTokenChar (c : Char) : Bool := isWordChar c || c.toNat = 39

/-- Number of matches of WORD_PATTERN = \b[\w\x27]+\b: the scanner walks
the characters; each maximal run of token characters yields exactly one
match if and only if it contains a word character (the word boundaries
force the match to start and end on word characters; leading and trailing
apostrophes of a run are dropped by boundary backtracking, interior ones
are kept).  The flag records whether the current run has already produced
its match. -/
def countWordsGo : Bool → List Char → Nat
  | _, [] => 0
  | counted, c :: rest =>
    if isTokenChar c then
      if !counted && isWordChar c then 1 + countWordsGo true rest
      else countWordsGo counted rest
    else countWordsGo false rest

/-- len(WORD_PATTERN.findall(content)) for one field value. -/
def countWords (s : String) : Nat := countWordsGo false s.data

/-- TrendCard.get_length: the per-field word counts, in declared field
order, as the dict built over get_type_hints(TrendCard). -/
def get_length (card : TrendCard) : List (String × Nat) :=
  fieldOrder.map (fun p => (p.1, countWords (p.2 card)))

/-- C8: get_length counts, for each of the six fields in declared order,
the WORD_PATTERN matches of that field value; on "Gen Z isn\x27t waiting."
the count is 4 (apostrophe kept inside a token, punctuation not counted).
-/
theorem get_length_word_pattern (card : TrendCard) :
    get_length card =
      [("card_identifier", countWords card.card_identifier),
       ("title", countWords card.title),
       ("description", countWords card.description),
       ("implications", countWords card.implications),
       ("opportunities", countWords card.opportunities),
       ("challenges", countWords card.challenges)] ∧
    countWords "Gen Z isn\x27t waiting." = 4 := by
  exact ⟨rfl, by decide⟩

/-- A concrete card whose description is the word-count scenario
sentence. -/
def wordCountCard : TrendCard :=
  { card_identifier := "Gen Z / Social"
    title := "Waves"
    description := "Gen Z isn\x27t waiting."
    implications := "Broad."
    opportunities := "Many."
    challenges := "Real." }

/-- Witness for C8 at a concrete card whose description is the scenario
sentence. -/
theorem get_length_word_pattern_witness :
    get_length wordCountCard =
      [("card_identifier", countWords wordCountCard.card_identifier),
       ("title", countWords wordCountCard.title),
       ("description", countWords wordCountCard.description),
       ("implications", countWords wordCountCard.implications),
       ("opportunities", countWords wordCountCard.opportunities),
       ("challenges", countWords wordCountCard.challenges)] ∧
    countWords "Gen Z isn\x27t waiting." = 4 :=
  get_length_word_pattern wordCountCard

/-- Observable steps of a batch run: a generator invocation, a file read,
an editor invocation, a successful persist. -/
inductive BatchEvent where
  | genCall (inputs : TrendCardInput)
  | readCall (path : String)
  | editCall (text : String)
  | persisted (file_name : String)
deriving DecidableEq, Repr

/-- The TrendCardInput built by generate_batch for one (topic, component)
item of the mapping (TrendCardAgent lines 109-114): the shared industry
segment and word limit, the item topic and component. -/
def mkInputs (industry_segment : String) (word_limit : Int)
    (p : String × String) : TrendCardInput :=
  { industry_segment := industry_segment
    topic := p.1
    component := some p.2
    word_limit := some word_limit }

/-- TrendCardAgent.generate_batch (lines 105-123): iterate the ordered
topic-to-component mapping; per item build the inputs, invoke the
generator, persist the card; the first error terminates the run with no
further items processed.  The generator oracle abstracts
generate_trend_card with the bound agent; the persist oracle abstracts
save_to_file together with the filesystem (which may raise).  Verbose
printing is additive logging and is not modelled.  Returns the event
trace and the terminating error, if any. -/
def generate_batch {ε : Type} (gen : TrendCardInput → Except ε TrendCard)
    (persist : TrendCard → Except ε String) (industry_segment : String)
    (word_limit : Int) :
    List (String × String) → List BatchEvent × Option ε
  | [] => ([], none)
  | p :: rest =>
    match gen (mkInputs industry_segment word_limit p) with
    | Except.error e =>
      ([BatchEvent.genCall (mkInputs industry_segment word_limit p)], some e)
    | Except.ok card =>
      match persist card with
      | Except.error e =>
        ([BatchEvent.genCall (mkInputs industry_segment word_limit p)],
         some e)
      | Except.ok fn =>
        let r := generate_batch gen persist industry_segment word_limit rest
        (BatchEvent.genCall (mkInputs industry_segment word_limit p) ::
          BatchEvent.persisted fn :: r.1, r.2)

/-- TrendCardEditor.edit_batch (lines 92-103): per file in list order read
the text, invoke the editor, persist the card under the suffixed name; the
first error terminates the run. -/
def edit_batch {ε : Type} (readF : String → Except ε String)
    (editF : String → Except ε TrendCard)
    (persist : TrendCard → Except ε String) :
    List String → List BatchEvent × Option ε
  | [] => ([], none)
  | f :: rest =>
    match readF f with
    | Except.error e => ([BatchEvent.readCall f], some e)
    | Except.ok text =>
      match editF text with
      | Except.error e =>
        ([BatchEvent.readCall f, BatchEvent.editCall text], some e)
      | Except.ok card =>
        match persist card with
        | Except.error e =>
          ([BatchEvent.readCall f, BatchEvent.editCall text], some e)
        | Except.ok fn =>
          let r := edit_batch readF editF persist rest
          (BatchEvent.readCall f :: BatchEvent.editCall text ::
            BatchEvent.persisted fn :: r.1, r.2)

/-- The two events of one successful generate-batch item. -/
def genItemEvents (seg : String) (wl : Int)
    (fnOf : String × String → String) (q : String × String) :
    List BatchEvent :=
  [BatchEvent.genCall (mkInputs seg wl q), BatchEvent.persisted (fnOf q)]

/-- The three events of one successful edit-batch item. -/
def editItemEvents (textOf : String → String) (fnOf : String → String)
    (f : String) : List BatchEvent :=
  [BatchEvent.readCall f, BatchEvent.editCall (textOf f),
   BatchEvent.persisted (fnOf f)]

theorem generate_batch_all_ok {ε : Type}
    (gen : TrendCardInput → Except ε TrendCard)
    (persist : TrendCard → Except ε String) (seg : String) (wl : Int)
    (cardOf : String × String → TrendCard)
    (fnOf : String × String → String) :
    ∀ (l : List (String × String)),
    (∀ q ∈ l, gen (mkInputs seg wl q) = Except.ok (cardOf q) ∧
      persist (cardOf q) = Except.ok (fnOf q)) →
    generate_batch gen persist seg wl l =
      (l.flatMap (genItemEvents seg wl fnOf), none) := by
  intro l
  induction l with
  | nil => intro _; rfl
  | cons p rest ih =>
    intro h
    have hp := h p (List.mem_cons_self _ _)
    have hr := ih (fun q hq => h q (List.mem_cons_of_mem _ hq))
    simp only [generate_batch, hp.1, hp.2, hr, List.flatMap_cons]
    rfl

theorem generate_batch_append {ε : Type}
    (gen : TrendCardInput → Except ε TrendCard)
    (persist : TrendCard → Except ε String) (seg : String) (wl : Int)
    (cardOf : String × String → TrendCard)
    (fnOf : String × String → String) :
    ∀ (pre rest : List (String × String)),
    (∀ q ∈ pre, gen (mkInputs seg wl q) = Except.ok (cardOf q) ∧
      persist (cardOf q) = Except.ok (fnOf q)) →
    generate_batch gen persist seg wl (pre ++ rest) =
      (pre.flatMap (genItemEvents seg wl fnOf) ++
        (generate_batch gen persist seg wl rest).1,
       (generate_batch gen persist seg wl rest).2) := by
  intro pre
  induction pre with
  | nil => intro rest _; simp
  | cons p pp ih =>
    intro rest h
    have hp := h p (List.mem_cons_self _ _)
    have hr := ih rest (fun q hq => h q (List.mem_cons_of_mem _ hq))
    simp only [List.cons_append, generate_batch, hp.1, hp.2, hr,
      List.flatMap_cons]
    simp [genItemEvents, hr]

theorem generate_batch_fail_head {ε : Type}
    (gen : TrendCardInput → Except ε TrendCard)
    (persist : TrendCard → Except ε String) (seg : String) (wl : Int)
    (p : String × String) (post : List (String × String)) (e : ε)
    (hfail : gen (mkInputs seg wl p) = Except.error e ∨
      ∃ card, gen (mkInputs seg wl p) = Except.ok card ∧
        persist card = Except.error e) :
    generate_batch gen persist seg wl (p :: post) =
      ([BatchEvent.genCall (mkInputs seg wl p)], some e) := by
  rcases hfail with h | ⟨card, h1, h2⟩
  · simp [generate_batch, h]
  · simp [generate_batch, h1, h2]

theorem edit_batch_all_ok {ε : Type}
    (readF : String → Except ε String)
    (editF : String → Except ε TrendCard)
    (persist : TrendCard → Except ε String)
    (textOf : String → String) (cardOf : String → TrendCard)
    (fnOf : String → String) :
    ∀ (l : List String),
    (∀ f ∈ l, readF f = Except.ok (textOf f) ∧
      editF (textOf f) = Except.ok (cardOf f) ∧
      persist (cardOf f) = Except.ok (fnOf f)) →
    edit_batch readF editF persist l =
      (l.flatMap (editItemEvents textOf fnOf), none) := by
  intro l
  induction l with
  | nil => intro _; rfl
  | cons f rest ih =>
    intro h
    have hf := h f (List.mem_cons_self _ _)
    have hr := ih (fun g hg => h g (List.mem_cons_of_mem _ hg))
    simp only [edit_batch, hf.1, hf.2.1, hf.2.2, hr, List.flatMap_cons]
    rfl

theorem edit_batch_append {ε : Type}
    (readF : String → Except ε String)
    (editF : String → Except ε TrendCard)
    (persist : TrendCard → Except ε String)
    (textOf : String → String) (cardOf : String → TrendCard)
    (fnOf : String → String) :
    ∀ (pre rest : List String),
    (∀ f ∈ pre, readF f = Except.ok (textOf f) ∧
      editF (textOf f) = Except.ok (cardOf f) ∧
      persist (cardOf f) = Except.ok (fnOf f)) →
    edit_batch readF editF persist (pre ++ rest) =
      (pre.flatMap (editItemEvents textOf fnOf) ++
        (edit_batch readF editF persist rest).1,
       (edit_batch readF editF persist rest).2) := by
  intro pre
  induction pre with
  | nil => intro rest _; simp
  | cons f pp ih =>
    intro rest h
    have hf := h f (List.mem_cons_self _ _)
    have hr := ih rest (fun g hg => h g (List.mem_cons_of_mem _ hg))
    simp only [List.cons_append, edit_batch, hf.1, hf.2.1, hf.2.2, hr,
      List.flatMap_cons]
    simp [editItemEvents, hr]

theorem edit_batch_fail_read {ε : Type}
    (readF : String → Except ε String)
    (editF : String → Except ε TrendCard)
    (persist : TrendCard → Except ε String)
    (p : String) (post : List String) (e : ε)
    (h : readF p = Except.error e) :
    edit_batch readF editF persist (p :: post) =
      ([BatchEvent.readCall p], some e) := by
  simp [edit_batch, h]

theorem edit_batch_fail_edit_or_persist {ε : Type}
    (readF : String → Except ε String)
    (editF : String → Except ε TrendCard)
    (persist : TrendCard → Except ε String)
    (p : String) (post : List String) (e : ε) (t : String)
    (hread : readF p = Except.ok t)
    (hfail : editF t = Except.error e ∨
      ∃ card, editF t = Except.ok card ∧ persist card = Except.error e) :
    edit_batch readF editF persist (p :: post) =
      ([BatchEvent.readCall p, BatchEvent.editCall t], some e) := by
  rcases hfail with h | ⟨card, h1, h2⟩
  · simp [edit_batch, hread, h]
  · simp [edit_batch, hread, h1, h2]

/-- C1: both batch runners process items strictly in iteration order with
one generator/editor invocation and at most one persist per item.  With no
failing item the trace is exactly the per-item events in order with a
persist per item and no error.  When one item fails (in generation,
reading, editing, or persisting), the batch terminates with that error:
the trace is the successful prefix (whose items remain persisted) followed
by the events of the failing item up to its failure, and no event of any
later item occurs. -/
theorem batch_fail_fast {ε : Type} :
    (∀ (gen : TrendCardInput → Except ε TrendCard)
       (persist : TrendCard → Except ε String) (seg : String) (wl : Int)
       (cardOf : String × String → TrendCard)
       (fnOf : String × String → String) (l : List (String × String)),
      (∀ q ∈ l, gen (mkInputs seg wl q) = Except.ok (cardOf q) ∧
        persist (cardOf q) = Except.ok (fnOf q)) →
      generate_batch gen persist seg wl l =
        (l.flatMap (genItemEvents seg wl fnOf), none)) ∧
    (∀ (gen : TrendCardInput → Except ε TrendCard)
       (persist : TrendCard → Except ε String) (seg : String) (wl : Int)
       (cardOf : String × String → TrendCard)
       (fnOf : String × String → String)
       (pre : List (String × String)) (p : String × String)
       (post : List (String × String)) (e : ε),
      (∀ q ∈ pre, gen (mkInputs seg wl q) = Except.ok (cardOf q) ∧
        persist (cardOf q) = Except.ok (fnOf q)) →
      (gen (mkInputs seg wl p) = Except.error e ∨
        ∃ card, gen (mkInputs seg wl p) = Except.ok card ∧
          persist card = Except.error e) →
      generate_batch gen persist seg wl (pre ++ p :: post) =
        (pre.flatMap (genItemEvents seg wl fnOf) ++
          [BatchEvent.genCall (mkInputs seg wl p)], some e)) ∧
    (∀ (readF : String → Except ε String)
       (editF : String → Except ε TrendCard)
       (persist : TrendCard → Except ε String)
       (textOf : String → String) (cardOf : String → TrendCard)
       (fnOf : String → String) (l : List String),
      (∀ f ∈ l, readF f = Except.ok (textOf f) ∧
        editF (textOf f) = Except.ok (cardOf f) ∧
        persist (cardOf f) = Except.ok (fnOf f)) →
      edit_batch readF editF persist l =
        (l.flatMap (editItemEvents textOf fnOf), none)) ∧
    (∀ (readF : String → Except ε String)
       (editF : String → Except ε TrendCard)
       (persist : TrendCard → Except ε String)
       (textOf : String → String) (cardOf : String → TrendCard)
       (fnOf : String → String) (pre : List String) (p : String)
       (post : List String) (e : ε),
      (∀ f ∈ pre, readF f = Except.ok (textOf f) ∧
        editF (textOf f) = Except.ok (cardOf f) ∧
        persist (cardOf f) = Except.ok (fnOf f)) →
      readF p = Except.error e →
      edit_batch readF editF persist (pre ++ p :: post) =
        (pre.flatMap (editItemEvents textOf fnOf) ++
          [BatchEvent.readCall p], some e)) ∧
    (∀ (readF : String → Except ε String)
       (editF : String → Except ε TrendCard)
       (persist : TrendCard → Except ε String)
       (textOf : String → String) (cardOf : String → TrendCard)
       (fnOf : String → String) (pre : List String) (p : String)
       (post : List String) (e : ε) (t : String),
      (∀ f ∈ pre, readF f = Except.ok (textOf f) ∧
        editF (textOf f) = Except.ok (cardOf f) ∧
        persist (cardOf f) = Except.ok (fnOf f)) →
      readF p = Except.ok t →
      (editF t = Except.error e ∨
        ∃ card, editF t = Except.ok card ∧ persist card = Except.error e) →
      edit_batch readF editF persist (pre ++ p :: post) =
        (pre.flatMap (editItemEvents textOf fnOf) ++
          [BatchEvent.readCall p, BatchEvent.editCall t], some e)) := by
  refine ⟨?_, ?_, ?_, ?_, ?_⟩
  · intro gen persist seg wl cardOf fnOf l h
    exact generate_batch_all_ok gen persist seg wl cardOf fnOf l h
  · intro gen persist seg wl cardOf fnOf pre p post e hpre hfail
    rw [generate_batch_append gen persist seg wl cardOf fnOf pre
        (p :: post) hpre,
      generate_batch_fail_head gen persist seg wl p post e hfail]
  · intro readF editF persist textOf cardOf fnOf l h
    exact edit_batch_all_ok readF editF persist textOf cardOf fnOf l h
  · intro readF editF persist textOf cardOf fnOf pre p post e hpre hread
    rw [edit_batch_append readF editF persist textOf cardOf fnOf pre
        (p :: post) hpre,
      edit_batch_fail_read readF editF persist p post e hread]
  · intro readF editF persist textOf cardOf fnOf pre p post e t hpre hread
      hfail
    rw [edit_batch_append readF editF persist textOf cardOf fnOf pre
        (p :: post) hpre,
      edit_batch_fail_edit_or_persist readF editF persist p post e t hread
        hfail]

/-- Generator oracle for the witness: fails on topic "B". -/
def demoGen : TrendCardInput → Except String TrendCard :=
  fun i => if i.topic = "B" then Except.error "boom"
    else Except.ok sampleCard

/-- Persist oracle for the witness: always succeeds with a fixed name. -/
def demoPersist : TrendCard → Except String String :=
  fun _ => Except.ok "f.md"

/-- Witness for C1: a three-item generate batch whose second item fails in
generation stops after the first item (which stays persisted) and never
touches the third. -/
theorem batch_fail_fast_witness :
    generate_batch demoGen demoPersist "seg" 40
        ([("A", "Social")] ++ ("B", "Legal") :: [("C", "Tech")]) =
      ([("A", "Social")].flatMap
          (genItemEvents "seg" 40 (fun _ => "f.md")) ++
        [BatchEvent.genCall (mkInputs "seg" 40 ("B", "Legal"))],
       some "boom") :=
  batch_fail_fast.2.1 demoGen demoPersist "seg" 40 (fun _ => sampleCard)
    (fun _ => "f.md") [("A", "Social")] ("B", "Legal") [("C", "Tech")]
    "boom"
    (fun q hq => by rw [List.mem_singleton.mp hq]; exact ⟨rfl, rfl⟩)
    (Or.inl rfl)

end TrendCardGen
